import Mathlib

/-!
Shallow embedding of `wasip1/net_wasip1.go` from marten-seemann/wasm-net.

The file models the address data types, the classifier functions
(`family`, `socketType`, `socketAddress`), the sockaddr decoders
(`sockaddrToTCPAddr`, `sockaddrToUDPAddr`, `sockaddrToUnixAddr`,
`sockaddrIPAndPort`), the connection wrapper `makeConn` with its overlay
`conn`, the trivial `netAddr` type, and the resolver disablement hook
`dialResolverNotSupported`.  Go slices of bytes become `List Nat`, the
nil slice becoming `[]`; a Go function returning `(T, error)` becomes
`Except String T`; a Go interface value that may be nil becomes
`Option`.
-/

namespace Wasip1

/-- A Go `net.IP` value: a byte slice.  Go's nil slice is `[]`. -/
abbrev IP := List Nat

/-- Embedding of Go's `net.IP.To4` from the standard library `net`
package: a 4-byte value is returned as is; a 16-byte value whose first
twelve bytes are ten zero bytes followed by `0xff 0xff` (the IPv4-mapped
form) yields its last four bytes; anything else yields nil. -/
def To4 (ip : IP) : Option IP :=
  if ip.length = 4 then some ip
  else if ip.length = 16 ∧ ip.take 12 = List.replicate 10 0 ++ [255, 255] then
    some (ip.drop 12)
  else none

/-- Go's `net.IPv6len`. -/
def IPv6len : Nat := 16

/-- The Go `net.Addr` values that `net_wasip1.go` dispatches on:
`*net.TCPAddr`, `*net.UDPAddr`, `*net.IPAddr` (IP and port fields; the
source never reads or writes the `Zone` field, so it is not modelled)
and `*net.UnixAddr` (`Name` and `Net` fields). -/
inductive GoAddr
  | tcp (ip : IP) (port : Int)
  | udp (ip : IP) (port : Int)
  | ipa (ip : IP)
  | unixA (name : String) (net : String)
deriving DecidableEq, Repr

/-- `Network()` of the four address kinds, per the Go standard library:
`"tcp"`, `"udp"`, `"ip"`, and for `*net.UnixAddr` the stored `Net`
field. -/
def GoAddr.network : GoAddr → String
  | .tcp _ _ => "tcp"
  | .udp _ _ => "udp"
  | .ipa _ => "ip"
  | .unixA _ net => net

/-- Modelled from the spec: the sockaddr tagged union (the struct types
`sockaddrInet4`, `sockaddrInet6`, `sockaddrUnix` are declared in a repo
file outside `src/`; their fields `addr`, `port`, `name` are those read
and written by `net_wasip1.go`): `Inet4 (address: 4 bytes, port)`,
`Inet6 (address: 16 bytes, port)`, `Local (name)`. -/
inductive Sockaddr
  | inet4 (addr : IP) (port : Int)
  | inet6 (addr : IP) (port : Int)
  | unixSA (name : String)
deriving DecidableEq, Repr

/-- Modelled from the spec: the socket family enumeration
(the `AF_UNIX`, `AF_INET`, `AF_INET6` constants live in a repo file
outside `src/`). -/
inductive Family
  | af_unix
  | af_inet
  | af_inet6
deriving DecidableEq, Repr

/-- Modelled from the spec: the socket type enumeration (the
`SOCK_STREAM`, `SOCK_DGRAM` constants live in a repo file outside
`src/`). -/
inductive SockType
  | stream
  | dgram
deriving DecidableEq, Repr

/-- The tail of `family` from `net_wasip1.go`, after the type switch has
bound `ip`: `To4` decides `AF_INET`, a 16-byte length decides
`AF_INET6`, and everything else defaults to `AF_INET`. -/
def familyOfIP (ip : IP) : Family :=
  if (To4 ip).isSome then .af_inet
  else if ip.length = IPv6len then .af_inet6
  else .af_inet

/-- `family` from `net_wasip1.go`: a type switch binds `ip` for the
three IP-carrying kinds (`*net.UnixAddr` returns `AF_UNIX` at once),
then the common tail `familyOfIP` runs. -/
def family (addr : GoAddr) : Family :=
  match addr with
  | .unixA _ _ => .af_unix
  | .tcp ip _ => familyOfIP ip
  | .udp ip _ => familyOfIP ip
  | .ipa ip => familyOfIP ip

/-- `socketType` from `net_wasip1.go`: a switch on `addr.Network()`
grouping `"tcp"`/`"unix"` into `SOCK_STREAM` and `"udp"`/`"unixgram"`
into `SOCK_DGRAM`; the default case fails with `syscall.EPROTOTYPE`. -/
def socketType (addr : GoAddr) : Except String SockType :=
  if addr.network = "tcp" ∨ addr.network = "unix" then .ok .stream
  else if addr.network = "udp" ∨ addr.network = "unixgram" then .ok .dgram
  else .error "EPROTOTYPE"

/-- The tail of `socketAddress` from `net_wasip1.go`, after the type
switch has bound `ip` and `port` (`*net.IPAddr` leaves `port` at zero):
`To4` chooses `sockaddrInet4`, a 16-byte length chooses `sockaddrInet6`,
and anything else fails with a `net.AddrError` whose `Err` field is
"unsupported address type" (its `Addr` field, `addr.String()`, is not
modelled). -/
def sockaddrOfIPPort (ip : IP) (port : Int) : Except String Sockaddr :=
  match To4 ip with
  | some ipv4 => .ok (.inet4 ipv4 port)
  | none =>
    if ip.length = IPv6len then .ok (.inet6 ip port)
    else .error "unsupported address type"

/-- `socketAddress` from `net_wasip1.go`, completed: the type switch
dispatches to `sockaddrOfIPPort` with the bound `ip` and `port`. -/
def socketAddress (addr : GoAddr) : Except String Sockaddr :=
  match addr with
  | .unixA name _ => .ok (.unixSA name)
  | .tcp ip port => sockaddrOfIPPort ip port
  | .udp ip port => sockaddrOfIPPort ip port
  | .ipa ip => sockaddrOfIPPort ip 0

/-- `sockaddrIPAndPort` from `net_wasip1.go`: the inet4 and inet6
sockaddrs give up their address bytes and port; any other sockaddr gives
`(nil, 0)` — nil `net.IP` is the empty list. -/
def sockaddrIPAndPort (addr : Sockaddr) : IP × Int :=
  match addr with
  | .inet4 a p => (a, p)
  | .inet6 a p => (a, p)
  | .unixSA _ => ([], 0)

/-- `sockaddrToTCPAddr` from `net_wasip1.go`: always builds a
`*net.TCPAddr` (a non-nil `net.Addr`) from `sockaddrIPAndPort`. -/
def sockaddrToTCPAddr (addr : Sockaddr) : Option GoAddr :=
  some (.tcp (sockaddrIPAndPort addr).1 (sockaddrIPAndPort addr).2)

/-- `sockaddrToUDPAddr` from `net_wasip1.go`: always builds a
`*net.UDPAddr` from `sockaddrIPAndPort`. -/
def sockaddrToUDPAddr (addr : Sockaddr) : Option GoAddr :=
  some (.udp (sockaddrIPAndPort addr).1 (sockaddrIPAndPort addr).2)

/-- `sockaddrToUnixAddr` from `net_wasip1.go`: a unix sockaddr maps to
`&net.UnixAddr(Net: "unix", Name: name)`; every other sockaddr maps to
nil. -/
def sockaddrToUnixAddr (addr : Sockaddr) : Option GoAddr :=
  match addr with
  | .unixSA name => some (.unixA name "unix")
  | _ => none

/-- `netAddr` from `net_wasip1.go`: two string fields. -/
structure netAddr where
  network : String
  address : String
deriving DecidableEq, Repr

/-- `(*netAddr).Network()` from `net_wasip1.go`: returns the `address`
field (as written in the source), not the `network` field. -/
def netAddr.Network (na : netAddr) : String := na.address

/-- `(*netAddr).String()` from `net_wasip1.go`: returns the `address`
field. -/
def netAddr.String (na : netAddr) : String := na.address

/-- `dialResolverNotSupported` from `net_wasip1.go`: ignores the
context, network and address and returns `(nil, errors.New(...))`; it is
a pure function performing no socket operation. -/
def dialResolverNotSupported (_ctx : Unit) (_network _address : String) :
    Option GoAddr × Option String :=
  (none, some "net.Resolver not supported on GOOS=wasip1")

/-- The concrete dynamic type of the wrapped `net.Conn`, as inspected by
the type switch in `makeConn`: `*net.UnixConn`, `*net.UDPConn`,
`*net.TCPConn`, or any other implementation. -/
inductive ConnType
  | unixConn
  | udpConn
  | tcpConn
  | otherConn
deriving DecidableEq, Repr

/-- Modelled from the spec: the observable behaviour of the raw
descriptor underneath a `syscall.Conn`, abstracting `SyscallConn()`,
`rawConn.Control`, and the `getsockname` / `getpeername` introspection
calls (declared in a repo file outside `src/`): each is given by its
result on this connection. -/
structure RawConnBehavior where
  /-- Error returned by `syscallConn.SyscallConn()`, if any. -/
  syscallConnErr : Option String
  /-- Error returned by `rawConn.Control` itself (`rawConnErr`). -/
  controlErr : Option String
  /-- Result of `getsockname(fd)`. -/
  sockname : Except String Sockaddr
  /-- Result of `getpeername(fd)`. -/
  peername : Except String Sockaddr
deriving Repr

/-- A Go `net.Conn` as `makeConn` observes it: its concrete type and,
when it implements `syscall.Conn`, the behaviour of its raw
descriptor. -/
structure GoConn where
  typ : ConnType
  raw : Option RawConnBehavior

/-- The `conn` overlay struct from `net_wasip1.go`: an embedded
`net.Conn` plus the two resolved addresses (nil `net.Addr` is
`none`). -/
structure conn where
  laddr : Option GoAddr
  raddr : Option GoAddr
deriving DecidableEq, Repr

/-- `(*conn).LocalAddr()` from `net_wasip1.go`. -/
def conn.LocalAddr (c : conn) : Option GoAddr := c.laddr

/-- `(*conn).RemoteAddr()` from `net_wasip1.go`. -/
def conn.RemoteAddr (c : conn) : Option GoAddr := c.raddr

/-- What `makeConn` hands back on success: either the argument
connection unchanged (when it is not a `syscall.Conn`) or the `conn`
overlay. -/
inductive MakeConnResult
  | unchanged
  | wrapped (w : conn)
deriving DecidableEq, Repr

/-- The outcome of a `makeConn` call: the returned
`(net.Conn, error)` pair as an `Except`, plus how many times
`c.Close()` was invoked along the way. -/
structure MakeConnOutcome where
  result : Except String MakeConnResult
  closes : Nat
deriving Repr

/-- The type-switch body of `makeConn` from `net_wasip1.go`, run once
both introspection calls have succeeded: the static type of the
connection selects the decoder applied to both sockaddrs; an unknown
type leaves both addresses nil. -/
def decodeByConnType (typ : ConnType) (addr peer : Sockaddr) :
    Option GoAddr × Option GoAddr :=
  match typ with
  | .unixConn => (sockaddrToUnixAddr addr, sockaddrToUnixAddr peer)
  | .udpConn => (sockaddrToUDPAddr addr, sockaddrToUDPAddr peer)
  | .tcpConn => (sockaddrToTCPAddr addr, sockaddrToTCPAddr peer)
  | .otherConn => (none, none)

/-- `makeConn` from `net_wasip1.go`.  A connection that is not a
`syscall.Conn` is returned unchanged.  Otherwise `SyscallConn()` runs;
on error the connection is closed and the error returned.  The
`rawConn.Control` closure then calls `getsockname` and `getpeername`,
returning early (leaving `err` set and both addresses nil) if either
fails; on success the type switch decodes both sockaddrs.  Afterwards
`err` is replaced by `rawConnErr` only when still nil; a non-nil `err`
closes the connection and propagates; otherwise the overlay is
returned. -/
def makeConn (c : GoConn) : MakeConnOutcome :=
  match c.raw with
  | none => ⟨.ok .unchanged, 0⟩
  | some rb =>
    match rb.syscallConnErr with
    | some e => ⟨.error e, 1⟩
    | none =>
      match rb.sockname with
      | .error e => ⟨.error e, 1⟩
      | .ok addr =>
        match rb.peername with
        | .error e => ⟨.error e, 1⟩
        | .ok peer =>
          match rb.controlErr with
          | some e => ⟨.error e, 1⟩
          | none =>
            let lr := decodeByConnType c.typ addr peer
            ⟨.ok (.wrapped ⟨lr.1, lr.2⟩), 0⟩

/-- Round trip of an endpoint through `socketAddress` and the decoder
for the stream-IP connection kind (`sockaddrToTCPAddr`); an encode
failure yields `none`. -/
def roundTripTCP (a : GoAddr) : Option GoAddr :=
  match socketAddress a with
  | .ok sa => sockaddrToTCPAddr sa
  | .error _ => none

/-- Round trip through `socketAddress` and `sockaddrToUDPAddr`. -/
def roundTripUDP (a : GoAddr) : Option GoAddr :=
  match socketAddress a with
  | .ok sa => sockaddrToUDPAddr sa
  | .error _ => none

/-- Round trip through `socketAddress` and `sockaddrToUnixAddr`. -/
def roundTripUnix (a : GoAddr) : Option GoAddr :=
  match socketAddress a with
  | .ok sa => sockaddrToUnixAddr sa
  | .error _ => none

/-- C1, counterexample: decoding a `Local` sockaddr against the
stream-IP expected kind does NOT return a nil `net.Addr` —
`sockaddrToTCPAddr` unconditionally builds a `*net.TCPAddr`, so on a
unix sockaddr it returns a non-nil address (with nil IP and port 0). -/
theorem c1_counterexample :
    sockaddrToTCPAddr (.unixSA "/tmp/sock") ≠ none := by
  decide

/-- C1, amended: decoding a `Local` sockaddr against a stream-IP or
datagram-IP expected kind returns a non-nil `*net.TCPAddr` /
`*net.UDPAddr` whose IP is nil and whose port is 0 (the address content
is absent, but the `net.Addr` itself is not nil); decoding an `Inet4` or
`Inet6` sockaddr against the unix expected kind returns a nil
`net.Addr`; no case raises an error. -/
theorem c1_cross_family_decode (name : String) (b4 b16 : IP) (p : Int) :
    sockaddrToTCPAddr (.unixSA name) = some (.tcp [] 0) ∧
    sockaddrToUDPAddr (.unixSA name) = some (.udp [] 0) ∧
    sockaddrToUnixAddr (.inet4 b4 p) = none ∧
    sockaddrToUnixAddr (.inet6 b16 p) = none :=
  ⟨rfl, rfl, rfl, rfl⟩

/-- C2, counterexample: a constructible IPv4 endpoint whose 4-byte-
representable IP is stored in the 16-byte IPv4-mapped container does not
round trip unchanged — encode narrows it to the 4-byte form, so decode
returns the 4-byte IP, not the original 16-byte value. -/
theorem c2_counterexample :
    roundTripTCP (.tcp [0, 0, 0, 0, 0, 0, 0, 0, 0, 0, 255, 255, 192, 0, 2, 1] 80) ≠
      some (.tcp [0, 0, 0, 0, 0, 0, 0, 0, 0, 0, 255, 255, 192, 0, 2, 1] 80) := by
  decide

/-- C2, amended: the encode/decode round trip with the matching
connection kind is the identity for IPv4 endpoints whose IP is stored in
the 4-byte container, for IPv6 endpoints (16-byte IP with no 4-byte
representation), and for unix endpoints whose network is "unix"; an IP
stored in the 16-byte IPv4-mapped container round trips to the same
endpoint with its IP in the equivalent 4-byte form. -/
theorem c2_roundtrip (ip : IP) (port : Int) (name : String) :
    (ip.length = 4 →
      roundTripTCP (.tcp ip port) = some (.tcp ip port) ∧
      roundTripUDP (.udp ip port) = some (.udp ip port)) ∧
    (ip.length = 16 → To4 ip = none →
      roundTripTCP (.tcp ip port) = some (.tcp ip port) ∧
      roundTripUDP (.udp ip port) = some (.udp ip port)) ∧
    (∀ b4, To4 ip = some b4 →
      roundTripTCP (.tcp ip port) = some (.tcp b4 port) ∧
      roundTripUDP (.udp ip port) = some (.udp b4 port)) ∧
    roundTripUnix (.unixA name "unix") = some (.unixA name "unix") := by
  refine ⟨?_, ?_, ?_, rfl⟩
  · intro h4
    have hTo4 : To4 ip = some ip := by simp [To4, h4]
    constructor <;>
      simp [roundTripTCP, roundTripUDP, socketAddress, sockaddrOfIPPort,
        hTo4, sockaddrToTCPAddr, sockaddrToUDPAddr, sockaddrIPAndPort]
  · intro h16 hTo4
    constructor <;>
      simp [roundTripTCP, roundTripUDP, socketAddress, sockaddrOfIPPort,
        hTo4, h16, IPv6len, sockaddrToTCPAddr, sockaddrToUDPAddr,
        sockaddrIPAndPort]
  · intro b4 hTo4
    constructor <;>
      simp [roundTripTCP, roundTripUDP, socketAddress, sockaddrOfIPPort,
        hTo4, sockaddrToTCPAddr, sockaddrToUDPAddr, sockaddrIPAndPort]

/-- C2, witness at concrete inputs: a 4-byte IPv4 endpoint, a 16-byte
IPv6 endpoint, a unix endpoint, and a 16-byte IPv4-mapped endpoint. -/
theorem c2_roundtrip_witness :
    roundTripTCP (.tcp [192, 0, 2, 1] 80) = some (.tcp [192, 0, 2, 1] 80) ∧
    roundTripUDP (.udp [192, 0, 2, 1] 80) = some (.udp [192, 0, 2, 1] 80) ∧
    roundTripTCP (.tcp [32, 1, 13, 184, 0, 0, 0, 0, 0, 0, 0, 0, 0, 0, 0, 1] 443) =
      some (.tcp [32, 1, 13, 184, 0, 0, 0, 0, 0, 0, 0, 0, 0, 0, 0, 1] 443) ∧
    roundTripUnix (.unixA "/tmp/sock" "unix") = some (.unixA "/tmp/sock" "unix") ∧
    roundTripTCP (.tcp [0, 0, 0, 0, 0, 0, 0, 0, 0, 0, 255, 255, 192, 0, 2, 1] 80) =
      some (.tcp [192, 0, 2, 1] 80) :=
  ⟨((c2_roundtrip [192, 0, 2, 1] 80 "/tmp/sock").1 rfl).1,
   ((c2_roundtrip [192, 0, 2, 1] 80 "/tmp/sock").1 rfl).2,
   ((c2_roundtrip [32, 1, 13, 184, 0, 0, 0, 0, 0, 0, 0, 0, 0, 0, 0, 1] 443
      "/tmp/sock").2.1 rfl (by decide)).1,
   (c2_roundtrip [192, 0, 2, 1] 80 "/tmp/sock").2.2.2,
   ((c2_roundtrip [0, 0, 0, 0, 0, 0, 0, 0, 0, 0, 255, 255, 192, 0, 2, 1] 80
      "/tmp/sock").2.2.1 [192, 0, 2, 1] (by decide)).1⟩

/-- C3: on a socket-backed connection (a `syscall.Conn` whose
`SyscallConn()` succeeds), if the local-name query or the peer-name
query fails — including a peer-name failure after a successful
local-name query — then `makeConn` closes the underlying connection
exactly once and returns the failing query's error with no overlay. -/
theorem c3_makeConn_query_failure (c : GoConn) (rb : RawConnBehavior)
    (hraw : c.raw = some rb) (hsc : rb.syscallConnErr = none)
    (hfail : (∃ e, rb.sockname = .error e) ∨ (∃ e, rb.peername = .error e)) :
    (makeConn c).closes = 1 ∧
    ∃ e, (makeConn c).result = .error e ∧
      (rb.sockname = .error e ∨ rb.peername = .error e) := by
  rcases hfail with ⟨e, he⟩ | ⟨e, he⟩
  · have hm : makeConn c = ⟨.error e, 1⟩ := by
      simp [makeConn, hraw, hsc, he]
    exact ⟨by rw [hm], e, by rw [hm], Or.inl he⟩
  · cases hs : rb.sockname with
    | error e' =>
      have hm : makeConn c = ⟨.error e', 1⟩ := by
        simp [makeConn, hraw, hsc, hs]
      exact ⟨by rw [hm], e', by rw [hm], Or.inl rfl⟩
    | ok a =>
      have hm : makeConn c = ⟨.error e, 1⟩ := by
        simp [makeConn, hraw, hsc, hs, he]
      exact ⟨by rw [hm], e, by rw [hm], Or.inr he⟩

/-- C3, witness: a TCP connection whose peer-name query fails after a
successful local-name query is closed exactly once and the error is
propagated. -/
theorem c3_makeConn_query_failure_witness :
    (makeConn ⟨.tcpConn, some ⟨none, none, .ok (.inet4 [10, 0, 0, 1] 8080),
        .error "ENOTCONN"⟩⟩).closes = 1 ∧
    ∃ e, (makeConn ⟨.tcpConn, some ⟨none, none, .ok (.inet4 [10, 0, 0, 1] 8080),
        .error "ENOTCONN"⟩⟩).result = .error e ∧
      ((RawConnBehavior.mk none none (.ok (.inet4 [10, 0, 0, 1] 8080))
          (.error "ENOTCONN")).sockname = .error e ∨
       (RawConnBehavior.mk none none (.ok (.inet4 [10, 0, 0, 1] 8080))
          (.error "ENOTCONN")).peername = .error e) :=
  c3_makeConn_query_failure
    ⟨.tcpConn, some ⟨none, none, .ok (.inet4 [10, 0, 0, 1] 8080), .error "ENOTCONN"⟩⟩
    ⟨none, none, .ok (.inet4 [10, 0, 0, 1] 8080), .error "ENOTCONN"⟩
    rfl rfl (Or.inr ⟨"ENOTCONN", rfl⟩)

/-- C4: the installed resolver override ignores its inputs and always
returns a nil connection with the explicit unsupported-capability error;
there is no input on which it succeeds, and, being a pure function, it
performs no socket operation. -/
theorem c4_resolver_always_fails (ctx : Unit) (network address : String) :
    dialResolverNotSupported ctx network address =
      (none, some "net.Resolver not supported on GOOS=wasip1") :=
  rfl

/-- C5: every IP with a 4-byte representation — whether stored in the
4-byte container or the 16-byte IPv4-mapped container — is classified
`AF_INET` by `family`, for all three IP-carrying address kinds; an
absent (nil) IP also defaults to `AF_INET`. -/
theorem c5_family_inet4 (ip : IP) (port : Int)
    (h : (To4 ip).isSome ∨ ip = []) :
    family (.tcp ip port) = .af_inet ∧
    family (.udp ip port) = .af_inet ∧
    family (.ipa ip) = .af_inet := by
  have hf : familyOfIP ip = .af_inet := by
    rcases h with h | h
    · simp [familyOfIP, h]
    · subst h; decide
  exact ⟨hf, hf, hf⟩

/-- C5, witness: a native 4-byte IP, a 16-byte IPv4-mapped IP, and a
nil IP are all classified `AF_INET`. -/
theorem c5_family_inet4_witness :
    family (.tcp [192, 0, 2, 1] 80) = .af_inet ∧
    family (.tcp [0, 0, 0, 0, 0, 0, 0, 0, 0, 0, 255, 255, 192, 0, 2, 1] 80) =
      .af_inet ∧
    family (.udp [] 0) = .af_inet :=
  ⟨(c5_family_inet4 [192, 0, 2, 1] 80 (Or.inl (by decide))).1,
   (c5_family_inet4 [0, 0, 0, 0, 0, 0, 0, 0, 0, 0, 255, 255, 192, 0, 2, 1] 80
      (Or.inl (by decide))).1,
   (c5_family_inet4 [] 0 (Or.inr rfl)).2.1⟩

/-- C6: `socketAddress` maps a unix endpoint to `Local(name)`; an IP
endpoint whose address has a 4-byte representation to
`Inet4(address, port)`; otherwise, an IP endpoint whose address is
exactly 16 bytes to `Inet6(address, port)`; and any other address
(zero-length or malformed) to the "unsupported address type" failure. -/
theorem c6_socketAddress_spec (ip : IP) (port : Int) (name net : String) :
    socketAddress (.unixA name net) = .ok (.unixSA name) ∧
    (∀ b4, To4 ip = some b4 →
      socketAddress (.tcp ip port) = .ok (.inet4 b4 port) ∧
      socketAddress (.udp ip port) = .ok (.inet4 b4 port) ∧
      socketAddress (.ipa ip) = .ok (.inet4 b4 0)) ∧
    (To4 ip = none → ip.length = 16 →
      socketAddress (.tcp ip port) = .ok (.inet6 ip port) ∧
      socketAddress (.udp ip port) = .ok (.inet6 ip port)) ∧
    (To4 ip = none → ip.length ≠ 16 →
      socketAddress (.tcp ip port) = .error "unsupported address type" ∧
      socketAddress (.udp ip port) = .error "unsupported address type") := by
  refine ⟨rfl, ?_, ?_, ?_⟩
  · intro b4 hTo4
    exact ⟨by simp [socketAddress, sockaddrOfIPPort, hTo4],
      by simp [socketAddress, sockaddrOfIPPort, hTo4],
      by simp [socketAddress, sockaddrOfIPPort, hTo4]⟩
  · intro hTo4 h16
    constructor <;> simp [socketAddress, sockaddrOfIPPort, hTo4, h16, IPv6len]
  · intro hTo4 h16
    constructor <;> simp [socketAddress, sockaddrOfIPPort, hTo4, IPv6len, h16]

/-- C6, witness: a unix endpoint, a 4-byte IP, a 16-byte IPv4-mapped IP,
a plain 16-byte IPv6 address, and a malformed 3-byte address. -/
theorem c6_socketAddress_spec_witness :
    socketAddress (.unixA "/tmp/sock" "unix") = .ok (.unixSA "/tmp/sock") ∧
    socketAddress (.tcp [192, 0, 2, 1] 80) = .ok (.inet4 [192, 0, 2, 1] 80) ∧
    socketAddress (.tcp [0, 0, 0, 0, 0, 0, 0, 0, 0, 0, 255, 255, 192, 0, 2, 1] 80) =
      .ok (.inet4 [192, 0, 2, 1] 80) ∧
    socketAddress (.tcp [32, 1, 13, 184, 0, 0, 0, 0, 0, 0, 0, 0, 0, 0, 0, 1] 443) =
      .ok (.inet6 [32, 1, 13, 184, 0, 0, 0, 0, 0, 0, 0, 0, 0, 0, 0, 1] 443) ∧
    socketAddress (.tcp [1, 2, 3] 80) = .error "unsupported address type" :=
  ⟨(c6_socketAddress_spec [] 0 "/tmp/sock" "unix").1,
   ((c6_socketAddress_spec [192, 0, 2, 1] 80 "x" "unix").2.1 [192, 0, 2, 1]
      (by decide)).1,
   ((c6_socketAddress_spec [0, 0, 0, 0, 0, 0, 0, 0, 0, 0, 255, 255, 192, 0, 2, 1]
      80 "x" "unix").2.1 [192, 0, 2, 1] (by decide)).1,
   ((c6_socketAddress_spec [32, 1, 13, 184, 0, 0, 0, 0, 0, 0, 0, 0, 0, 0, 0, 1]
      443 "x" "unix").2.2.1 (by decide) (by decide)).1,
   ((c6_socketAddress_spec [1, 2, 3] 80 "x" "unix").2.2.2 (by decide)
      (by decide)).1⟩

/-- C7: `socketType` is an exact-match lookup on the address's network
name: "tcp" and "unix" give `SOCK_STREAM`, "udp" and "unixgram" give
`SOCK_DGRAM`, and every other network name fails with `EPROTOTYPE` —
there is no default success case. -/
theorem c7_socketType_lookup (s : String) (ip : IP) (p : Int) (name : String) :
    socketType (.tcp ip p) = .ok .stream ∧
    socketType (.unixA name "unix") = .ok .stream ∧
    socketType (.udp ip p) = .ok .dgram ∧
    socketType (.unixA name "unixgram") = .ok .dgram ∧
    socketType (.ipa ip) = .error "EPROTOTYPE" ∧
    (s ≠ "tcp" → s ≠ "unix" → s ≠ "udp" → s ≠ "unixgram" →
      socketType (.unixA name s) = .error "EPROTOTYPE") := by
  refine ⟨by simp [socketType, GoAddr.network], by simp [socketType, GoAddr.network],
    by simp [socketType, GoAddr.network], by simp [socketType, GoAddr.network],
    by simp [socketType, GoAddr.network], ?_⟩
  intro h1 h2 h3 h4
  simp [socketType, GoAddr.network, h1, h2, h3, h4]

/-- C7, witness: the four recognised networks classify as stated, and
the unrecognised network "udp6" fails with `EPROTOTYPE`. -/
theorem c7_socketType_lookup_witness :
    socketType (.tcp [] 0) = .ok .stream ∧
    socketType (.unixA "/x" "unix") = .ok .stream ∧
    socketType (.udp [] 0) = .ok .dgram ∧
    socketType (.unixA "/x" "unixgram") = .ok .dgram ∧
    socketType (.unixA "/x" "udp6") = .error "EPROTOTYPE" :=
  ⟨(c7_socketType_lookup "udp6" [] 0 "/x").1,
   (c7_socketType_lookup "udp6" [] 0 "/x").2.1,
   (c7_socketType_lookup "udp6" [] 0 "/x").2.2.1,
   (c7_socketType_lookup "udp6" [] 0 "/x").2.2.2.1,
   (c7_socketType_lookup "udp6" [] 0 "/x").2.2.2.2.2 (by decide) (by decide)
     (by decide) (by decide)⟩

/-- C8: a connection that does not implement `syscall.Conn` is returned
by `makeConn` unchanged, with no error and without being closed —
wrapping is a no-op, not a failure. -/
theorem c8_makeConn_noop (c : GoConn) (h : c.raw = none) :
    makeConn c = ⟨.ok .unchanged, 0⟩ := by
  simp [makeConn, h]

/-- C8, witness: a concrete non-syscall connection passes through
unchanged. -/
theorem c8_makeConn_noop_witness :
    makeConn ⟨.otherConn, none⟩ = ⟨.ok .unchanged, 0⟩ :=
  c8_makeConn_noop ⟨.otherConn, none⟩ rfl

/-- C9: `netAddr`'s `Network()` accessor returns the stored `address`
string — the same string `String()` returns — so the stored `network`
field is not observable through either accessor: both accessors are
invariant under changing it. -/
theorem c9_netAddr_accessors (na : netAddr) (n n' a : String) :
    na.Network = na.address ∧
    netAddr.String na = na.address ∧
    na.Network = netAddr.String na ∧
    (netAddr.mk n a).Network = (netAddr.mk n' a).Network ∧
    netAddr.String (netAddr.mk n a) = netAddr.String (netAddr.mk n' a) :=
  ⟨rfl, rfl, rfl, rfl, rfl⟩

/-- C10: a syscall-backed connection on which both name queries succeed
but whose concrete type is none of `*net.UnixConn`, `*net.UDPConn`,
`*net.TCPConn` is wrapped successfully — no error, no close — into an
overlay whose `LocalAddr()` and `RemoteAddr()` are both nil. -/
theorem c10_makeConn_unknown_kind (c : GoConn) (rb : RawConnBehavior)
    (a p : Sockaddr) (hraw : c.raw = some rb) (htyp : c.typ = .otherConn)
    (hsc : rb.syscallConnErr = none) (hctl : rb.controlErr = none)
    (hs : rb.sockname = .ok a) (hp : rb.peername = .ok p) :
    ∃ w, makeConn c = ⟨.ok (.wrapped w), 0⟩ ∧
      conn.LocalAddr w = none ∧ conn.RemoteAddr w = none := by
  refine ⟨⟨none, none⟩, ?_, rfl, rfl⟩
  simp [makeConn, hraw, hsc, hs, hp, hctl, decodeByConnType, htyp]

/-- C10, witness: a concrete connection of unknown kind with both
queries succeeding wraps into an overlay with nil addresses. -/
theorem c10_makeConn_unknown_kind_witness :
    ∃ w, makeConn ⟨.otherConn, some ⟨none, none, .ok (.inet4 [10, 0, 0, 1] 1),
        .ok (.inet4 [10, 0, 0, 2] 2)⟩⟩ = ⟨.ok (.wrapped w), 0⟩ ∧
      conn.LocalAddr w = none ∧ conn.RemoteAddr w = none :=
  c10_makeConn_unknown_kind
    ⟨.otherConn, some ⟨none, none, .ok (.inet4 [10, 0, 0, 1] 1),
      .ok (.inet4 [10, 0, 0, 2] 2)⟩⟩
    ⟨none, none, .ok (.inet4 [10, 0, 0, 1] 1), .ok (.inet4 [10, 0, 0, 2] 2)⟩
    (.inet4 [10, 0, 0, 1] 1) (.inet4 [10, 0, 0, 2] 2)
    rfl rfl rfl rfl rfl rfl

end Wasip1
